import Mathlib

/-!
Verification of `mlflow/tracing/processor/inference_table.py`
(`InferenceTableSpanProcessor`): the trace lifecycle registry that
correlates request ids with trace ids, registers traces on root-span
start, and finalizes + exports them on root-span end.

The processor itself is embedded directly from the source.  Helper
functions it imports (`generate_trace_id_v3`, `get_otel_attribute`,
`deduplicate_span_names_in_place`, `TraceStatus.from_otel_status`,
`InMemoryTraceManager`) live outside the excerpt and are modelled from
the specification, each marked `Modelled from the spec:` in its doc
comment.
-/

namespace InferenceTable

/-! ### Decimal rendering of naturals (for name-dedup suffixes) -/

/-- Little-endian base-10 digit list of `n`, with explicit fuel
(`fuel ≥ n` suffices). -/
def natDigitsAux : Nat → Nat → List Nat
  | 0, _ => []
  | fuel + 1, n => if n = 0 then [] else (n % 10) :: natDigitsAux fuel (n / 10)

/-- Little-endian base-10 digits of `n`. -/
def natDigits (n : Nat) : List Nat := natDigitsAux n n

/-- Value of a little-endian base-10 digit list. -/
def ofDigits : List Nat → Nat
  | [] => 0
  | d :: ds => d + 10 * ofDigits ds

/-- Character for a single decimal digit. -/
def digitChar10 (d : Nat) : Char := Char.ofNat (48 + d)

/-- Decimal string of a natural number (standard big-endian rendering). -/
def natRepr10 (n : Nat) : String :=
  if n = 0 then "0" else String.mk ((natDigits n).map digitChar10).reverse

/-! ### JSON encoding of a string value (`json.dumps` / `json.loads` on a `str`) -/

/-- Escape the characters of a string for a JSON string literal
(quote and backslash get a backslash put in front). -/
def jsonEscape : List Char → List Char
  | [] => []
  | c :: cs =>
    if c = '"' ∨ c = '\\' then '\\' :: c :: jsonEscape cs else c :: jsonEscape cs

/-- Parse the tail of a JSON string literal (after the opening quote):
unescape up to a closing quote that must end the input. -/
def jsonParseTail : List Char → Option (List Char)
  | [] => none
  | c :: cs =>
    if c = '"' then (if cs = [] then some [] else none)
    else if c = '\\' then
      match cs with
      | [] => none
      | d :: ds =>
        if d = '"' ∨ d = '\\' then (jsonParseTail ds).map (fun t => d :: t) else none
    else (jsonParseTail cs).map (fun t => c :: t)

/-- Modelled from the spec: Python `json.dumps` applied to a `str` value
(the processor stores the trace id as a JSON-encoded span attribute). -/
def jsonDumps (s : String) : String :=
  String.mk ('"' :: (jsonEscape s.data ++ ['"']))

/-- Modelled from the spec: Python `json.loads` restricted to JSON string
literals, returning `none` on anything unparsable. -/
def jsonLoads (s : String) : Option String :=
  match s.data with
  | '"' :: rest => (jsonParseTail rest).map String.mk
  | _ => none

/-! ### Span collection and name deduplication

`deduplicate_span_names_in_place` is imported from `mlflow.tracing.utils`
and is not part of the excerpt; it is modelled from the spec (§4.4):
rewrite colliding sibling display names by appending an incrementing
counter so every exported span has a unique display name, preserving
span ids and parent/child structure, idempotently. -/

/-- Span record as the collector sees it: original identifier,
parent/child structure, display name. -/
structure MSpan where
  span_id : Nat
  parent_id : Option Nat
  name : String
deriving DecidableEq, Repr

/-- Candidate disambiguated name: the original name with counter `k`. -/
def candName (s : String) (k : Nat) : String := s ++ "_" ++ natRepr10 k

/-- Find the first unused candidate name, trying counters `k, k+1, …`
for `fuel` steps (fuel `used.length + 1` always suffices). -/
def findSuffix (used : List String) (s : String) : Nat → Nat → String
  | 0, _ => s
  | fuel + 1, k =>
    if candName s k ∈ used then findSuffix used s fuel (k + 1) else candName s k

/-- Candidate names with counters `k, …, k + fuel - 1`. -/
def candsFrom (s : String) (k fuel : Nat) : List String :=
  (List.range' k fuel).map (candName s)

/-- Deduplicate names left to right, threading the set of names already
used: a fresh name is kept, a colliding one gets the first unused
counter suffix starting at 2. -/
def dedupGo (used : List String) : List MSpan → List MSpan
  | [] => []
  | sp :: rest =>
    let nm :=
      if sp.name ∈ used then findSuffix used sp.name (used.length + 1) 2 else sp.name
    { sp with name := nm } :: dedupGo (nm :: used) rest

/-- Modelled from the spec: `deduplicate_span_names_in_place` (§4.4 Span
Collector) — rewrites colliding sibling span names with an incrementing
counter suffix so display names are unique, preserving ids and
parent/child structure; stable on already-deduplicated input. -/
def deduplicate_span_names_in_place (spans : List MSpan) : List MSpan :=
  dedupGo [] spans

/-- Every name in the list is fresh with respect to `used` and to all
names before it. -/
def FreshSeq : List String → List MSpan → Prop
  | _, [] => True
  | used, sp :: rest => sp.name ∉ used ∧ FreshSeq (sp.name :: used) rest

/-! ### Statuses -/

/-- Terminal OpenTelemetry span status code. -/
inductive OtelStatusCode where
  | UNSET
  | OK
  | ERROR
deriving DecidableEq, Repr

/-- MLflow trace status enumeration (`mlflow.entities.trace_status`). -/
inductive TraceStatus where
  | UNSPECIFIED
  | OK
  | ERROR
  | IN_PROGRESS
deriving DecidableEq, Repr

/-- Modelled from the spec: `TraceStatus.from_otel_status` (imported from
`mlflow.entities.trace_status`, not in the excerpt) maps the span's
terminal OpenTelemetry status to the TraceInfo status enumeration. -/
def TraceStatus.from_otel_status : OtelStatusCode → TraceStatus
  | OtelStatusCode.OK => TraceStatus.OK
  | OtelStatusCode.ERROR => TraceStatus.ERROR
  | OtelStatusCode.UNSET => TraceStatus.UNSPECIFIED

/-! ### Constants from `mlflow.tracing.constant` and the source module -/

/-- Span attribute key under which the processor stores the trace id
(`SpanAttributeKey.REQUEST_ID`); the concrete string is opaque here. -/
def SpanAttributeKey.REQUEST_ID : String := "mlflow.traceRequestId"

/-- Schema version constant (`TRACE_SCHEMA_VERSION`), an opaque number. -/
def TRACE_SCHEMA_VERSION : Nat := 2

/-- Metadata key for the schema version (`TRACE_SCHEMA_VERSION_KEY`). -/
def TRACE_SCHEMA_VERSION_KEY : String := "mlflow.trace_schema.version"

/-- Correlation header name, `_HEADER_REQUEST_ID_KEY` in the source
(line 26). -/
def HEADER_REQUEST_ID_KEY : String := "X-Request-Id"

/-! ### Spans -/

/-- OpenTelemetry span as the processor sees it: an opaque record with a
declared parent (`span._parent`, `none` for roots), native context trace
id (`span.context.trace_id`), start/end times in nanoseconds, terminal
status, and string attributes holding JSON-encoded values. -/
structure OtelSpan where
  parent : Option Nat
  context_trace_id : Nat
  span_id : Nat
  name : String
  start_time : Nat
  end_time : Nat
  status : OtelStatusCode
  attributes : List (String × String)
deriving DecidableEq, Repr

/-- OpenTelemetry `span.set_attribute`: store a value under a key; the
new entry shadows any older entry for the same key (lookup returns the
first match, so prepending realizes overwrite semantics). -/
def OtelSpan.set_attribute (s : OtelSpan) (key v : String) : OtelSpan :=
  { s with attributes := (key, v) :: s.attributes }

/-- Modelled from the spec: `get_otel_attribute` from
`mlflow.tracing.utils` (not in the excerpt) reads a span attribute and
JSON-decodes it, returning `none` when the attribute is missing or not
decodable. -/
def get_otel_attribute (s : OtelSpan) (key : String) : Option String :=
  (s.attributes.lookup key).bind jsonLoads

/-- Modelled from the spec: `generate_trace_id_v3` from
`mlflow.tracing.utils` (not in the excerpt) — the Trace ID Generator, a
pure deterministic function of the span's native trace context (§4.2). -/
def generate_trace_id_v3 (s : OtelSpan) : String :=
  "tr-" ++ natRepr10 s.context_trace_id

/-! ### Trace info and the registry -/

/-- `mlflow.entities.trace_info.TraceInfo` with the fields the processor
populates (source lines 89–102). -/
structure TraceInfo where
  request_id : String
  client_request_id : String
  experiment_id : Option String
  timestamp_ms : Nat
  execution_time_ms : Option Nat
  status : TraceStatus
  request_metadata : List (String × String)
  tags : List (String × String)
deriving DecidableEq, Repr

/-- Per-trace state held by the registry: the trace info plus the ordered
collection of collected spans keyed by span id (`trace.span_dict`). -/
structure TraceState where
  info : TraceInfo
  span_dict : List (Nat × MSpan)
deriving DecidableEq, Repr

/-- Modelled from the spec: the Trace Registry (`InMemoryTraceManager`,
not in the excerpt) as a mapping from trace key to trace state; lookup
returns the first matching entry. -/
abbrev Registry := List (String × TraceState)

/-- Modelled from the spec: `Registry.register` (§4.3) — insert a fresh
trace state with an empty span collection under `key`; on a key
collision the new entry shadows the old one (overwrite policy). -/
def registerTrace (reg : Registry) (key : String) (info : TraceInfo) : Registry :=
  (key, { info := info, span_dict := [] }) :: reg

/-- Registry lookup: the state under `key`, if any. -/
def lookupTrace (reg : Registry) (key : String) : Option TraceState :=
  reg.lookup key

/-- Write back the (mutated-under-lock) state for `key`. -/
def setTrace (reg : Registry) (key : String) (st : TraceState) : Registry :=
  reg.map (fun kv => if kv.1 = key then (key, st) else kv)

/-- Modelled from the spec: `Registry.remove` (§4.3) — delete the entry
for `key`; called only after successful finalization. -/
def removeTrace (reg : Registry) (key : String) : Registry :=
  reg.filter (fun kv => kv.1 != key)

/-- Deduplicate the display names of the spans collected in a
`span_dict`, in place: keys stay, the span records are rewritten
(source line 124). -/
def dedupSpanDict (d : List (Nat × MSpan)) : List (Nat × MSpan) :=
  (d.map Prod.fst).zip (deduplicate_span_names_in_place (d.map Prod.snd))

/-! ### Observable events

Warnings, debug logs, trace-id generation, registration, entry-lock
acquire/release, and the hand-off to the exporter (`super().on_end`)
are recorded as an event list so that claims about logging, invocation
and lock scoping can be stated. -/

inductive Event where
  | logWarning
  | logDebug
  | genTraceId (trace_id : String)
  | registerEvt (key : String)
  | lockAcquire (key : String)
  | lockRelease (key : String)
  | exportCall (span_id : Nat)
deriving DecidableEq, Repr

/-- Nesting depth of entry locks after a list of events. -/
def lockDepth (evs : List Event) : Int :=
  evs.foldl
    (fun d e =>
      match e with
      | Event.lockAcquire _ => d + 1
      | Event.lockRelease _ => d - 1
      | _ => d)
    0

/-! ### Ambient inputs -/

/-- Ambient inputs read by `on_start`: the per-call prediction context
value (`maybe_get_request_id`), the active inbound Flask request's
headers when a request context exists (`_get_flask_request`, source
lines 30–34), the value of the `MLFLOW_EXPERIMENT_ID` environment
variable, and `maybe_get_dependencies_schemas`. -/
structure Env where
  ambient_request_id : Option String
  flask_headers : Option (List (String × String))
  mlflow_experiment_id : Option String
  dependencies_schemas : Option (List (String × String))
deriving DecidableEq, Repr

/-- Correlation resolution performed at the top of `on_start` (source
lines 59–80): use `maybe_get_request_id`; only when it returns `None`
fall back to the `X-Request-Id` header of the active Flask request.  A
missing request context, or a missing or empty header (Python's falsy
check on line 69), resolves to `none`. -/
def resolveRequestId (env : Env) : Option String :=
  match env.ambient_request_id with
  | some rid => some rid
  | none =>
    match env.flask_headers with
    | none => none
    | some headers =>
      match headers.lookup HEADER_REQUEST_ID_KEY with
      | none => none
      | some h => if h = "" then none else some h

/-- Tags assembled at the start of a trace (source lines 84–86): the
dependencies schemas when present, merged into an empty tag set. -/
def startTags (env : Env) : List (String × String) :=
  match env.dependencies_schemas with
  | some ds => ds
  | none => []

/-! ### The processor -/

/-- Result of `on_start`: the registry, the (possibly tagged) span, and
the observable events. -/
structure StartResult where
  reg : Registry
  span : OtelSpan
  events : List Event
deriving DecidableEq, Repr

/-- Embedding of `InferenceTableSpanProcessor.on_start` (source lines
48–103).  When correlation resolution fails, a warning is logged and the
handler returns with nothing changed.  Otherwise the trace id is
generated, the span is tagged with it (JSON-encoded) under
`SpanAttributeKey.REQUEST_ID`, and — only when the span has no parent —
a `TraceInfo` is built and registered. -/
def on_start (env : Env) (reg : Registry) (span : OtelSpan) : StartResult :=
  match resolveRequestId env with
  | none => { reg := reg, span := span, events := [Event.logWarning] }
  | some databricks_request_id =>
    let trace_id := generate_trace_id_v3 span
    let span1 := span.set_attribute SpanAttributeKey.REQUEST_ID (jsonDumps trace_id)
    let tags := startTags env
    match span.parent with
    | none =>
      let trace_info : TraceInfo :=
        { request_id := trace_id
          client_request_id := databricks_request_id
          experiment_id := env.mlflow_experiment_id
          timestamp_ms := span.start_time / 1000000
          execution_time_ms := none
          status := TraceStatus.IN_PROGRESS
          request_metadata := [(TRACE_SCHEMA_VERSION_KEY, natRepr10 TRACE_SCHEMA_VERSION)]
          tags := tags }
      { reg := registerTrace reg trace_id trace_info
        span := span1
        events := [Event.genTraceId trace_id, Event.registerEvt trace_id] }
    | some _ =>
      { reg := reg, span := span1, events := [Event.genTraceId trace_id] }

/-- Result of `on_end`: the registry, the finalized snapshot handed to
the exporter (if any), and the observable events. -/
structure EndResult where
  reg : Registry
  snapshot : Option TraceState
  events : List Event
deriving DecidableEq, Repr

/-- Embedding of `InferenceTableSpanProcessor.on_end` (source lines
105–126).  Non-root spans return immediately.  For a root span the trace
key is read back from the span's attributes; the locked `get_trace`
scope then either finds no entry (debug log, no-op) or finalizes the
trace: execution time from `(end_time - start_time) // 1_000_000`,
status mapped from the span's OpenTelemetry status, span names
deduplicated.  After the lock scope exits, `super().on_end` hands the
span to the exporter; modelled from the spec (§4.5), that hand-off
removes the finalized entry from the registry (the exporter pops the
trace; the exporter is not in the excerpt). -/
def on_end (reg : Registry) (span : OtelSpan) : EndResult :=
  match span.parent with
  | some _ => { reg := reg, snapshot := none, events := [] }
  | none =>
    match get_otel_attribute span SpanAttributeKey.REQUEST_ID with
    | none => { reg := reg, snapshot := none, events := [Event.logDebug] }
    | some key =>
      match lookupTrace reg key with
      | none => { reg := reg, snapshot := none, events := [Event.logDebug] }
      | some trace =>
        let info1 :=
          { trace.info with
            execution_time_ms := some ((span.end_time - span.start_time) / 1000000)
            status := TraceStatus.from_otel_status span.status }
        let trace1 : TraceState := { info := info1, span_dict := dedupSpanDict trace.span_dict }
        let reg1 := setTrace reg key trace1
        let reg2 := removeTrace reg1 key
        { reg := reg2
          snapshot := some trace1
          events := [Event.lockAcquire key, Event.lockRelease key, Event.exportCall span.span_id] }

/-- End-to-end composition used in the claims: run `on_start` for a
span, then deliver its end event — the now-immutable span carrying the
updated end time and terminal status — against the registry produced at
start. -/
def startThenEnd (env : Env) (reg : Registry) (span : OtelSpan) (et : Nat)
    (ost : OtelStatusCode) : EndResult :=
  on_end (on_start env reg span).reg
    { (on_start env reg span).span with end_time := et, status := ost }

/-! ### Concrete fixtures used by witnesses and counterexamples -/

/-- Environment whose ambient prediction context carries a request id. -/
def envA : Env :=
  { ambient_request_id := some "req-42"
    flask_headers := none
    mlflow_experiment_id := none
    dependencies_schemas := none }

/-- Environment where neither the ambient context nor a Flask request
context is available: correlation resolution fails. -/
def envNone : Env :=
  { ambient_request_id := none
    flask_headers := none
    mlflow_experiment_id := none
    dependencies_schemas := none }

/-- Concrete root span (no parent). -/
def spanRoot : OtelSpan :=
  { parent := none
    context_trace_id := 5
    span_id := 1
    name := "predict"
    start_time := 0
    end_time := 0
    status := OtelStatusCode.UNSET
    attributes := [] }

/-- Concrete child span (parent present). -/
def spanChild : OtelSpan :=
  { parent := some 1
    context_trace_id := 5
    span_id := 2
    name := "fetch"
    start_time := 0
    end_time := 0
    status := OtelStatusCode.UNSET
    attributes := [] }

/-- The concrete root span after being tagged by `on_start` and ended
with status OK at 120 ms. -/
def spanRootEnded : OtelSpan :=
  { (on_start envA [] spanRoot).span with
    end_time := 120000000
    status := OtelStatusCode.OK }

/-! ### Helper lemmas -/

theorem string_data_inj {a b : String} (h : a.data = b.data) : a = b := by
  cases a; cases b; exact congrArg String.mk h

theorem ofDigits_natDigitsAux : ∀ fuel n, n ≤ fuel → ofDigits (natDigitsAux fuel n) = n := by
  intro fuel
  induction fuel with
  | zero => intro n hn; interval_cases n; simp [natDigitsAux, ofDigits]
  | succ fuel ih =>
    intro n hn
    by_cases h0 : n = 0
    · simp [natDigitsAux, h0, ofDigits]
    · have hdiv : n / 10 ≤ fuel := by
        have h1 : n / 10 < n := Nat.div_lt_self (Nat.pos_of_ne_zero h0) (by omega)
        omega
      simp only [natDigitsAux, h0, if_false, ofDigits, ih (n / 10) hdiv]
      omega

theorem ofDigits_natDigits (n : Nat) : ofDigits (natDigits n) = n :=
  ofDigits_natDigitsAux n n (Nat.le_refl n)

theorem natDigits_injective : Function.Injective natDigits := by
  intro a b h
  have := ofDigits_natDigits a
  rw [h, ofDigits_natDigits] at this
  omega

theorem natDigitsAux_lt_ten : ∀ fuel n d, d ∈ natDigitsAux fuel n → d < 10 := by
  intro fuel
  induction fuel with
  | zero => intro n d h; simp [natDigitsAux] at h
  | succ fuel ih =>
    intro n d h
    by_cases h0 : n = 0
    · simp [natDigitsAux, h0] at h
    · simp only [natDigitsAux, h0, if_false, List.mem_cons] at h
      rcases h with h | h
      · omega
      · exact ih _ _ h

theorem digitChar10_injOn {a b : Nat} (ha : a < 10) (hb : b < 10)
    (h : digitChar10 a = digitChar10 b) : a = b := by
  interval_cases a <;> interval_cases b <;> simp_all [digitChar10]

theorem map_digitChar10_inj {xs ys : List Nat}
    (hx : ∀ d ∈ xs, d < 10) (hy : ∀ d ∈ ys, d < 10)
    (h : xs.map digitChar10 = ys.map digitChar10) : xs = ys := by
  induction xs generalizing ys with
  | nil => cases ys <;> simp_all
  | cons a xs ih =>
    cases ys with
    | nil => simp_all
    | cons b ys =>
      simp only [List.map_cons, List.cons.injEq] at h
      have hab : a = b := digitChar10_injOn (hx a (by simp)) (hy b (by simp)) h.1
      have : xs = ys := ih (fun d hd => hx d (by simp [hd])) (fun d hd => hy d (by simp [hd])) h.2
      simp [hab, this]

theorem natRepr10_ne_zero_of_pos {n : Nat} (hn : n ≠ 0) : natRepr10 n ≠ "0" := by
  simp only [natRepr10, hn, if_false]
  intro h
  have hdata : (((natDigits n).map digitChar10).reverse : List Char) = ['0'] := by
    have := congrArg String.data h
    simpa using this
  have hne : natDigits n ≠ [] := by
    intro hnil
    have := ofDigits_natDigits n
    rw [hnil] at this
    simp [ofDigits] at this
    exact hn this.symm
  have hlast : natDigits n = [0] := by
    have hmap : (natDigits n).map digitChar10 = ['0'] := by
      have := congrArg List.reverse hdata
      simpa using this
    have h10 : ∀ d ∈ natDigits n, d < 10 := fun d hd => natDigitsAux_lt_ten n n d hd
    have h01 : ([0] : List Nat).map digitChar10 = ['0'] := by decide
    exact map_digitChar10_inj h10 (by intro d hd; simp at hd; omega) (hmap.trans h01.symm)
  have := ofDigits_natDigits n
  rw [hlast] at this
  simp [ofDigits] at this
  exact hn this.symm

theorem natRepr10_injective : Function.Injective natRepr10 := by
  intro a b h
  by_cases ha : a = 0
  · by_cases hb : b = 0
    · omega
    · exfalso
      subst ha
      exact natRepr10_ne_zero_of_pos hb (by rw [← h]; simp [natRepr10])
  · by_cases hb : b = 0
    · exfalso
      subst hb
      exact natRepr10_ne_zero_of_pos ha (by rw [h]; simp [natRepr10])
    · simp only [natRepr10, ha, hb, if_false] at h
      have hdata := congrArg String.data h
      simp only [String.mk] at hdata
      have hrev : ((natDigits a).map digitChar10) = ((natDigits b).map digitChar10) := by
        have := congrArg List.reverse hdata
        simpa using this
      have hda : ∀ d ∈ natDigits a, d < 10 := fun d hd => natDigitsAux_lt_ten a a d hd
      have hdb : ∀ d ∈ natDigits b, d < 10 := fun d hd => natDigitsAux_lt_ten b b d hd
      exact natDigits_injective (map_digitChar10_inj hda hdb hrev)

theorem jsonParseTail_escape (cs : List Char) :
    jsonParseTail (jsonEscape cs ++ ['"']) = some cs := by
  induction cs with
  | nil => simp [jsonEscape, jsonParseTail]
  | cons c cs ih =>
    by_cases h : c = '"' ∨ c = '\\'
    · simp only [jsonEscape, h, if_true, List.cons_append]
      rw [jsonParseTail.eq_def]
      simp [h, ih]
    · have h1 : c ≠ '"' := fun hc => h (Or.inl hc)
      have h2 : c ≠ '\\' := fun hc => h (Or.inr hc)
      simp only [jsonEscape, h, if_false, List.cons_append]
      rw [jsonParseTail.eq_def]
      simp [h1, h2, ih]

theorem jsonLoads_jsonDumps (s : String) : jsonLoads (jsonDumps s) = some s := by
  simp only [jsonDumps, jsonLoads, jsonParseTail_escape, Option.map_some]
  cases s; rfl

theorem candName_injective (s : String) : Function.Injective (candName s) := by
  intro a b h
  have hdata := congrArg String.data h
  simp only [candName, String.data_append] at hdata
  have := List.append_cancel_left hdata
  exact natRepr10_injective (string_data_inj this)

theorem findSuffix_not_mem_of_not_subset (used : List String) (s : String) :
    ∀ fuel k, ¬ (candsFrom s k fuel ⊆ used) → findSuffix used s fuel k ∉ used := by
  intro fuel
  induction fuel with
  | zero =>
    intro k hsub
    exact absurd (by simp [candsFrom]) hsub
  | succ fuel ih =>
    intro k hsub
    rw [findSuffix]
    by_cases hmem : candName s k ∈ used
    · simp only [hmem, if_true]
      refine ih (k + 1) (fun htail => hsub ?_)
      intro x hx
      simp only [candsFrom, List.range'_succ, List.map_cons, List.mem_cons] at hx
      rcases hx with hx | hx
      · exact hx ▸ hmem
      · exact htail hx
    · simp [hmem]

theorem findSuffix_not_mem (used : List String) (s : String) {fuel : Nat} (k : Nat)
    (hfuel : used.length < fuel) : findSuffix used s fuel k ∉ used := by
  refine findSuffix_not_mem_of_not_subset used s fuel k (fun hsub => ?_)
  have hnodup : (candsFrom s k fuel).Nodup :=
    (List.nodup_range' k fuel).map (candName_injective s)
  have hlen : (candsFrom s k fuel).length = fuel := by
    simp [candsFrom]
  have := (hnodup.subperm hsub).length_le
  omega

theorem freshSeq_dedupGo : ∀ (spans : List MSpan) (used : List String),
    FreshSeq used (dedupGo used spans) := by
  intro spans
  induction spans with
  | nil => intro used; trivial
  | cons sp rest ih =>
    intro used
    rw [dedupGo]
    by_cases hmem : sp.name ∈ used
    · simp only [hmem, if_true]
      exact ⟨findSuffix_not_mem used sp.name 2 (Nat.lt_succ_self _), ih _⟩
    · simp only [hmem, if_false]
      exact ⟨hmem, ih _⟩

theorem dedupGo_of_freshSeq : ∀ (spans : List MSpan) (used : List String),
    FreshSeq used spans → dedupGo used spans = spans := by
  intro spans
  induction spans with
  | nil => intro used _; rfl
  | cons sp rest ih =>
    intro used h
    obtain ⟨hna, htail⟩ := h
    rw [dedupGo]
    simp only [hna, if_false]
    rw [ih _ htail]

theorem dedupGo_structure : ∀ (spans : List MSpan) (used : List String),
    (dedupGo used spans).map (fun sp => (sp.span_id, sp.parent_id)) =
      spans.map (fun sp => (sp.span_id, sp.parent_id)) := by
  intro spans
  induction spans with
  | nil => intro used; rfl
  | cons sp rest ih =>
    intro used
    rw [dedupGo]
    simp only [List.map_cons, ih]

theorem lookupTrace_removeTrace (reg : Registry) (key : String) :
    lookupTrace (removeTrace reg key) key = none := by
  induction reg with
  | nil => rfl
  | cons kv rest ih =>
    simp only [removeTrace, List.filter_cons] at ih ⊢
    by_cases h : kv.1 = key
    · simp [h, ih]
    · have hb : (kv.1 != key) = true := by simp [h]
      simp only [hb, if_true]
      simp only [lookupTrace, List.lookup] at ih ⊢
      have : (key == kv.1) = false := by
        simp [BEq.comm]
        exact fun hc => h hc.symm
      rw [this]
      exact ih

/-! ### Claims -/

/-- Claim C9: `deduplicate_span_names_in_place` is idempotent — applying
it twice to a span collection yields the same result as applying it once
— sibling spans named `["fetch","fetch","fetch"]` become
`["fetch","fetch_2","fetch_3"]`, reapplying changes nothing further, and
every span's original identifier and parent/child structure is
preserved. -/
theorem spec_C9 (spans : List MSpan) :
    deduplicate_span_names_in_place (deduplicate_span_names_in_place spans) =
        deduplicate_span_names_in_place spans ∧
    (deduplicate_span_names_in_place spans).map (fun sp => (sp.span_id, sp.parent_id)) =
        spans.map (fun sp => (sp.span_id, sp.parent_id)) ∧
    (deduplicate_span_names_in_place
        [{ span_id := 1, parent_id := none, name := "fetch" },
         { span_id := 2, parent_id := none, name := "fetch" },
         { span_id := 3, parent_id := none, name := "fetch" }]).map MSpan.name =
      ["fetch", "fetch_2", "fetch_3"] := by
  refine ⟨dedupGo_of_freshSeq _ [] (freshSeq_dedupGo spans []), dedupGo_structure spans [], ?_⟩
  decide

/-- Claim C4, counterexample: for a span that has a parent, `on_start`
does derive a trace key — with an ambient request id present, the child
span's start invokes the Trace ID Generator and tags the span with the
JSON-encoded key, refuting the claim that no trace key is derived for a
parented span. -/
theorem spec_C4_counterexample :
    Event.genTraceId "tr-5" ∈ (on_start envA [] spanChild).events ∧
    (on_start envA [] spanChild).span.attributes.lookup SpanAttributeKey.REQUEST_ID =
      some (jsonDumps "tr-5") := by
  decide

/-- Claim C4 (amended): for every span that has a parent, `on_start`
performs no registry-level action — the registry is returned unchanged
and no registration event occurs — and, whenever the span's correlation
id resolves, the Trace ID Generator is invoked for that parented span
too and the derived trace key is tagged onto it (JSON-encoded): the
generator is not invoked only for roots. -/
theorem spec_C4 (env : Env) (reg : Registry) (span : OtelSpan) (p : Nat) (k rid : String)
    (hp : span.parent = some p) :
    (on_start env reg span).reg = reg ∧
    Event.registerEvt k ∉ (on_start env reg span).events ∧
    (resolveRequestId env = some rid →
      Event.genTraceId (generate_trace_id_v3 span) ∈ (on_start env reg span).events ∧
      (on_start env reg span).span.attributes.lookup SpanAttributeKey.REQUEST_ID =
        some (jsonDumps (generate_trace_id_v3 span))) := by
  cases hres : resolveRequestId env with
  | none =>
    refine ⟨by simp [on_start, hres], by simp [on_start, hres], ?_⟩
    intro h
    simp [hres] at h
  | some r =>
    refine ⟨by simp [on_start, hres, hp], by simp [on_start, hres, hp], ?_⟩
    intro _
    constructor
    · simp [on_start, hres, hp]
    · simp [on_start, hres, hp, OtelSpan.set_attribute, List.lookup]

/-- Claim C4 witness: the amended statement at the concrete child span,
whose ambient correlation id resolves. -/
theorem spec_C4_witness :
    (on_start envA [] spanChild).reg = [] ∧
    Event.registerEvt "tr-5" ∉ (on_start envA [] spanChild).events ∧
    (resolveRequestId envA = some "req-42" →
      Event.genTraceId (generate_trace_id_v3 spanChild) ∈ (on_start envA [] spanChild).events ∧
      (on_start envA [] spanChild).span.attributes.lookup SpanAttributeKey.REQUEST_ID =
        some (jsonDumps (generate_trace_id_v3 spanChild))) :=
  spec_C4 envA [] spanChild 1 "tr-5" "req-42" rfl

/-- Claim C2: for a root span for which neither the ambient per-call
context nor the inbound transport header yields a request id, `on_start`
logs a warning and returns without touching the registry or the span
(and without raising — the embedding is a total function), and the end
event for that (never-tagged) root span produces no exporter invocation
and no snapshot, only a debug log. -/
theorem spec_C2 (env : Env) (reg : Registry) (span : OtelSpan) (reg2 : Registry)
    (et : Nat) (ost : OtelStatusCode)
    (hres : resolveRequestId env = none) (hroot : span.parent = none)
    (hattr : span.attributes.lookup SpanAttributeKey.REQUEST_ID = none) :
    on_start env reg span = { reg := reg, span := span, events := [Event.logWarning] } ∧
    on_end reg2 { span with end_time := et, status := ost } =
      { reg := reg2, snapshot := none, events := [Event.logDebug] } := by
  refine ⟨by simp [on_start, hres], ?_⟩
  simp [on_end, hroot, get_otel_attribute, hattr]

/-- Claim C2 witness: the statement at a concrete unresolvable
environment and a concrete root span. -/
theorem spec_C2_witness :
    on_start envNone [] spanRoot =
      { reg := [], span := spanRoot, events := [Event.logWarning] } ∧
    on_end [] { spanRoot with end_time := 120000000, status := OtelStatusCode.OK } =
      { reg := [], snapshot := none, events := [Event.logDebug] } :=
  spec_C2 envNone [] spanRoot [] 120000000 OtelStatusCode.OK rfl rfl rfl

/-- Claim C5: for a root-span end event whose trace-key lookup yields no
entry (the attribute is missing, or no trace is registered under the
key), `on_end` returns the registry unchanged, no snapshot, and a debug
log — no export, no state mutation, no error. -/
theorem spec_C5 (reg : Registry) (span : OtelSpan)
    (hroot : span.parent = none)
    (hmiss : (get_otel_attribute span SpanAttributeKey.REQUEST_ID).bind
      (lookupTrace reg) = none) :
    on_end reg span = { reg := reg, snapshot := none, events := [Event.logDebug] } := by
  cases hattr : get_otel_attribute span SpanAttributeKey.REQUEST_ID with
  | none => simp [on_end, hroot, hattr]
  | some key =>
    rw [hattr] at hmiss
    simp only [Option.some_bind] at hmiss
    simp [on_end, hroot, hattr, hmiss]

/-- Claim C5 witness: the tagged root span ends against an empty
registry (trace never registered): debug log, nothing else. -/
theorem spec_C5_witness :
    on_end [] (on_start envA [] spanRoot).span =
      { reg := [], snapshot := none, events := [Event.logDebug] } :=
  spec_C5 [] (on_start envA [] spanRoot).span (by decide) (by decide)

/-- Claim C1: for a root span whose trace was registered at start (its
correlation id resolved), the end handler finalizes the trace inside the
locked scope for its key: the snapshot's execution time is (end − start)
converted from nanoseconds to milliseconds, and its status is the
TraceStatus mapped from the span's terminal OpenTelemetry status,
replacing the IN_PROGRESS status the trace had after start. -/
theorem spec_C1 (env : Env) (reg : Registry) (span : OtelSpan) (et : Nat)
    (ost : OtelStatusCode)
    (hroot : span.parent = none) (hres : resolveRequestId env ≠ none) :
    ((startThenEnd env reg span et ost).snapshot.map fun st => st.info.execution_time_ms) =
      some (some ((et - span.start_time) / 1000000)) ∧
    ((startThenEnd env reg span et ost).snapshot.map fun st => st.info.status) =
      some (TraceStatus.from_otel_status ost) ∧
    ((lookupTrace (on_start env reg span).reg (generate_trace_id_v3 span)).map
      fun st => st.info.status) = some TraceStatus.IN_PROGRESS ∧
    (startThenEnd env reg span et ost).events =
      [Event.lockAcquire (generate_trace_id_v3 span),
       Event.lockRelease (generate_trace_id_v3 span),
       Event.exportCall span.span_id] := by
  obtain ⟨rid, hrid⟩ : ∃ x, resolveRequestId env = some x := by
    rcases Option.eq_none_or_eq_some (resolveRequestId env) with h | h
    · exact absurd h hres
    · exact h
  simp [startThenEnd, on_start, on_end, hrid, hroot, OtelSpan.set_attribute,
        get_otel_attribute, jsonLoads_jsonDumps, lookupTrace, registerTrace,
        List.lookup, dedupSpanDict]

/-- Claim C1 witness: the statement at the scenario input (start 0 ns,
end 120000000 ns, status OK): execution time 120 ms, status OK. -/
theorem spec_C1_witness :
    ((startThenEnd envA [] spanRoot 120000000 OtelStatusCode.OK).snapshot.map
        fun st => st.info.execution_time_ms) = some (some 120) ∧
    ((startThenEnd envA [] spanRoot 120000000 OtelStatusCode.OK).snapshot.map
        fun st => st.info.status) = some TraceStatus.OK ∧
    ((lookupTrace (on_start envA [] spanRoot).reg (generate_trace_id_v3 spanRoot)).map
        fun st => st.info.status) = some TraceStatus.IN_PROGRESS ∧
    (startThenEnd envA [] spanRoot 120000000 OtelStatusCode.OK).events =
      [Event.lockAcquire (generate_trace_id_v3 spanRoot),
       Event.lockRelease (generate_trace_id_v3 spanRoot),
       Event.exportCall 1] :=
  spec_C1 envA [] spanRoot 120000000 OtelStatusCode.OK rfl (by decide)

/-- Claim C3: successfully finalizing a trace key removes that key's
entry from the registry — a snapshot is produced and handed to the
exporter, the registry no longer contains the key, and a second end
event for the same root span finds no entry and is a no-op (debug log
only). -/
theorem spec_C3 (reg : Registry) (span : OtelSpan) (key : String)
    (hroot : span.parent = none)
    (hattr : get_otel_attribute span SpanAttributeKey.REQUEST_ID = some key)
    (hreg : lookupTrace reg key ≠ none) :
    (on_end reg span).snapshot ≠ none ∧
    Event.exportCall span.span_id ∈ (on_end reg span).events ∧
    lookupTrace (on_end reg span).reg key = none ∧
    on_end (on_end reg span).reg span =
      { reg := (on_end reg span).reg, snapshot := none, events := [Event.logDebug] } := by
  obtain ⟨tr, htr⟩ : ∃ x, lookupTrace reg key = some x := by
    rcases Option.eq_none_or_eq_some (lookupTrace reg key) with h | h
    · exact absurd h hreg
    · exact h
  simp only [on_end, hroot, hattr, htr, lookupTrace_removeTrace]
  refine ⟨by simp, by simp, trivial, trivial⟩

/-- Claim C3 witness: the registered root span ends once (snapshot
exported, key removed), and a second delivery of the same end event is a
no-op. -/
theorem spec_C3_witness :
    (on_end (on_start envA [] spanRoot).reg spanRootEnded).snapshot ≠ none ∧
    Event.exportCall spanRootEnded.span_id ∈
      (on_end (on_start envA [] spanRoot).reg spanRootEnded).events ∧
    lookupTrace (on_end (on_start envA [] spanRoot).reg spanRootEnded).reg "tr-5" = none ∧
    on_end (on_end (on_start envA [] spanRoot).reg spanRootEnded).reg spanRootEnded =
      { reg := (on_end (on_start envA [] spanRoot).reg spanRootEnded).reg
        snapshot := none
        events := [Event.logDebug] } :=
  spec_C3 (on_start envA [] spanRoot).reg spanRootEnded "tr-5" rfl (by decide) (by decide)

/-- Claim C6: for a root span registered at start, the trace key assigned
at start is stored as a JSON-encoded attribute on the span itself, and
reading it back yields exactly the assigned key — the tag-then-read
round trip is the identity. -/
theorem spec_C6 (env : Env) (reg : Registry) (span : OtelSpan)
    (hroot : span.parent = none) (hres : resolveRequestId env ≠ none) :
    get_otel_attribute (on_start env reg span).span SpanAttributeKey.REQUEST_ID =
      some (generate_trace_id_v3 span) := by
  obtain ⟨rid, hrid⟩ : ∃ x, resolveRequestId env = some x := by
    rcases Option.eq_none_or_eq_some (resolveRequestId env) with h | h
    · exact absurd h hres
    · exact h
  simp [on_start, hrid, hroot, OtelSpan.set_attribute, get_otel_attribute,
        jsonLoads_jsonDumps, List.lookup]

/-- Claim C6 witness: the round trip at the concrete root span. -/
theorem spec_C6_witness :
    get_otel_attribute (on_start envA [] spanRoot).span SpanAttributeKey.REQUEST_ID =
      some (generate_trace_id_v3 spanRoot) :=
  spec_C6 envA [] spanRoot rfl (by decide)

/-- Claim C7: for a root span with a resolvable correlation id,
`on_start` registers a TraceInfo with status IN_PROGRESS, a null
execution time, and a start timestamp equal to the span's start time
converted from nanoseconds to milliseconds (with an empty span
collection). -/
theorem spec_C7 (env : Env) (reg : Registry) (span : OtelSpan) (rid : String)
    (hroot : span.parent = none) (hres : resolveRequestId env = some rid) :
    lookupTrace (on_start env reg span).reg (generate_trace_id_v3 span) =
      some { info :=
               { request_id := generate_trace_id_v3 span
                 client_request_id := rid
                 experiment_id := env.mlflow_experiment_id
                 timestamp_ms := span.start_time / 1000000
                 execution_time_ms := none
                 status := TraceStatus.IN_PROGRESS
                 request_metadata :=
                   [(TRACE_SCHEMA_VERSION_KEY, natRepr10 TRACE_SCHEMA_VERSION)]
                 tags := startTags env }
             span_dict := [] } := by
  simp [on_start, hres, hroot, lookupTrace, registerTrace, List.lookup]

/-- Claim C7 witness: the registered TraceInfo at the concrete root
span. -/
theorem spec_C7_witness :
    lookupTrace (on_start envA [] spanRoot).reg (generate_trace_id_v3 spanRoot) =
      some { info :=
               { request_id := generate_trace_id_v3 spanRoot
                 client_request_id := "req-42"
                 experiment_id := none
                 timestamp_ms := 0
                 execution_time_ms := none
                 status := TraceStatus.IN_PROGRESS
                 request_metadata :=
                   [(TRACE_SCHEMA_VERSION_KEY, natRepr10 TRACE_SCHEMA_VERSION)]
                 tags := startTags envA }
             span_dict := [] } :=
  spec_C7 envA [] spanRoot "req-42" rfl rfl

/-- Claim C8: the per-trace entry lock is never held while the exporter
is invoked — at every index of `on_end`'s event list where the export
call occurs, the lock nesting depth of the preceding events is zero. -/
theorem spec_C8 (reg : Registry) (span : OtelSpan) (i : Nat) (sid : Nat)
    (h : (on_end reg span).events.get? i = some (Event.exportCall sid)) :
    lockDepth ((on_end reg span).events.take i) = 0 := by
  cases hp : span.parent with
  | some p => simp [on_end, hp] at h
  | none =>
    cases hattr : get_otel_attribute span SpanAttributeKey.REQUEST_ID with
    | none =>
      simp only [on_end, hp, hattr] at h
      rcases i with _ | i
      · simp at h
      · simp at h
    | some key =>
      cases hlk : lookupTrace reg key with
      | none =>
        simp only [on_end, hp, hattr, hlk] at h
        rcases i with _ | i
        · simp at h
        · simp at h
      | some tr =>
        simp only [on_end, hp, hattr, hlk] at h ⊢
        rcases i with _ | (_ | (_ | i))
        · simp at h
        · simp at h
        · simp [lockDepth]
        · simp at h

/-- Claim C8 witness: at the concrete finalizing end event, the export
call sits at index 2 and the lock depth before it is zero. -/
theorem spec_C8_witness :
    lockDepth (((on_end (on_start envA [] spanRoot).reg spanRootEnded).events).take 2) = 0 :=
  spec_C8 (on_start envA [] spanRoot).reg spanRootEnded 2 1 (by decide)

/-- Claim C10: the experiment identifier registered at start is exactly
the value of the `MLFLOW_EXPERIMENT_ID` environment variable, with no
fallback to a default experiment — when the variable is unset the
registered TraceInfo carries `none`. -/
theorem spec_C10 (env : Env) (reg : Registry) (span : OtelSpan) (rid : String)
    (hroot : span.parent = none) (hres : resolveRequestId env = some rid) :
    (lookupTrace (on_start env reg span).reg (generate_trace_id_v3 span)).map
      (fun st => st.info.experiment_id) = some env.mlflow_experiment_id := by
  simp [on_start, hres, hroot, lookupTrace, registerTrace, List.lookup]

/-- Claim C10 witness: with `MLFLOW_EXPERIMENT_ID` unset (`envA` carries
`none`), the registered TraceInfo's experiment id is `none`, not a
default. -/
theorem spec_C10_witness :
    (lookupTrace (on_start envA [] spanRoot).reg (generate_trace_id_v3 spanRoot)).map
      (fun st => st.info.experiment_id) = some none :=
  spec_C10 envA [] spanRoot "req-42" rfl rfl

end InferenceTable
